import Mathlib

/-!
Shallow embedding of the Pomodoro timer core of the `manager-app` repository:
the persisted state store (`TimerStorage` in `src/assets/js/timerStorage.js`)
and the session state machine (`PomodoroManager` in the pomodoro hook logic
file). Modes and preset names are modelled as the strings the source uses;
millisecond and minute quantities are natural numbers; wall-clock instants are
integers. JavaScript `Math.max(0, a - b)` over integers is modelled by `Int`
subtraction followed by `Int.toNat`. Stateful methods of `PomodoroManager`
become functions from a state to the new state paired with the list of events
emitted, in emission order.
-/

namespace PomodoroCore

/-- The persisted timer record (`TimerState`). `saveState` always writes every
field, so stored records are modelled as fully-populated structures; the
spread-merge with `defaultState` performed by `loadState` is then the
identity. `lastTickAt` is `none` when the timer was saved paused. -/
structure TimerState where
  mode : String
  remainingMs : Nat
  preset : String
  isRunning : Bool
  completedSessions : Nat
  lastTickAt : Option Int
  workDuration : Nat
  breakDuration : Nat
  customWorkDuration : Nat
  customBreakDuration : Nat
deriving DecidableEq, Repr

/-- `this.defaultState` from the `TimerStorage` constructor. -/
def defaultState : TimerState :=
  { mode := "work"
    remainingMs := 25 * 60 * 1000
    preset := "pomodoro"
    isRunning := false
    completedSessions := 0
    lastTickAt := none
    workDuration := 25
    breakDuration := 5
    customWorkDuration := 25
    customBreakDuration := 5 }

/-- One entry of the static preset catalog (`getPresets`). -/
structure Preset where
  name : String
  description : String
  workDuration : Nat
  breakDuration : Nat
  icon : String
deriving DecidableEq, Repr

/-- `getPresets()[presetName]` restricted to the object's own properties:
the catalog lookup, `none` for non-catalog keys. In JavaScript the bracket
lookup additionally resolves names inherited from `Object.prototype`
(see `objectPrototypeKeys` below) to truthy functions; theorems about
`initializeWithPreset` therefore exclude those names. -/
def getPresets (presetName : String) : Option Preset :=
  if presetName = "pomodoro" then
    some { name := "Pomodoro", description := "25 phut lam viec, 5 phut nghi"
           workDuration := 25, breakDuration := 5, icon := "tomato" }
  else if presetName = "deepwork" then
    some { name := "Deep Work", description := "50 phut lam viec, 10 phut nghi"
           workDuration := 50, breakDuration := 10, icon := "brain" }
  else if presetName = "custom" then
    some { name := "Tuy chinh", description := "Thiet lap thoi gian rieng"
           workDuration := 25, breakDuration := 5, icon := "gear" }
  else none

/-- The optional `customDurations` argument of `initializeWithPreset` /
`selectPreset`: each field is absent (`none`) or a number. -/
structure CustomDurations where
  workDuration : Option Nat
  breakDuration : Option Nat
deriving DecidableEq, Repr

/-- The empty `customDurations` object (both fields absent). -/
def noDurations : CustomDurations := { workDuration := none, breakDuration := none }

/-- JavaScript `a || b` for an optional number `a`: `undefined` and `0` are
falsy and yield `b`; any other number is returned as-is. -/
def jsOrNat (a : Option Nat) (b : Nat) : Nat :=
  match a with
  | none => b
  | some n => if n = 0 then b else n

/-- `TimerStorage.initializeWithPreset(presetName, customDurations)`:
`presets[presetName] || presets.pomodoro` picks the catalog entry, custom
overrides apply only when `presetName === 'custom'`, and the result spreads
`defaultState` with the preset name, durations, a full work phase remaining,
and the custom-duration fields refreshed from the overrides or the defaults.
Faithful for preset names not inherited from `Object.prototype` (see
`objectPrototypeKeys`): at an inherited name the source's lookup returns a
truthy function, the fallback never fires, and the duration-derived fields
are `undefined`/`NaN`, which this `Nat`-valued model cannot represent; the
fields built from `customDurations` and `defaultState` bypass the lookup and
are faithful for every name. -/
def initializeWithPreset (presetName : String) (customDurations : CustomDurations) :
    TimerState :=
  let preset := (getPresets presetName).getD
    { name := "Pomodoro", description := "25 phut lam viec, 5 phut nghi"
      workDuration := 25, breakDuration := 5, icon := "tomato" }
  let workDuration := if presetName = "custom"
    then jsOrNat customDurations.workDuration preset.workDuration
    else preset.workDuration
  let breakDuration := if presetName = "custom"
    then jsOrNat customDurations.breakDuration preset.breakDuration
    else preset.breakDuration
  { defaultState with
    preset := presetName
    workDuration := workDuration
    breakDuration := breakDuration
    remainingMs := workDuration * 60 * 1000
    customWorkDuration := jsOrNat customDurations.workDuration defaultState.customWorkDuration
    customBreakDuration := jsOrNat customDurations.breakDuration defaultState.customBreakDuration }

/-- `TimerStorage.getNextMode(state)`. -/
def getNextMode (state : TimerState) : String :=
  if state.mode = "work" then "break" else "work"

/-- `TimerStorage.transitionToNext(state)`: flip the mode, reload the next
phase's full duration, count the session iff a work phase just completed,
and stop running. Pure; used by natural completion, skip, and nothing else. -/
def transitionToNext (state : TimerState) : TimerState :=
  let isWorkCompleted := state.mode = "work"
  let nextMode := getNextMode state
  { state with
    mode := nextMode
    remainingMs := if nextMode = "work"
      then state.workDuration * 60 * 1000
      else state.breakDuration * 60 * 1000
    completedSessions := if isWorkCompleted
      then state.completedSessions + 1
      else state.completedSessions
    isRunning := false }

/-- `TimerStorage.loadState()` at wall-clock instant `now`, reading the record
`saved` (`none` when nothing is stored). The source guard
`state.isRunning && state.lastTickAt` is a truthiness test: a missing
(`null`) timestamp AND the timestamp 0 are both falsy, so reconciliation
runs only for a running record with a present, nonzero `lastTickAt` — a
record stored at instant 0 comes back unchanged. When the guard passes, the
elapsed wall-clock time is subtracted from `remainingMs` floored at 0, and
hitting 0 applies one inline transition with `isRunning := false`. -/
def loadState (saved : Option TimerState) (now : Int) : TimerState :=
  match saved with
  | none => defaultState
  | some state =>
    match state.isRunning, state.lastTickAt with
    | true, some lastTickAt =>
      if lastTickAt = 0 then state
      else
      let elapsed := now - lastTickAt
      let remainingMs := ((state.remainingMs : Int) - elapsed).toNat
      if remainingMs = 0 then
        if state.mode = "work" then
          { state with
            isRunning := false
            completedSessions := state.completedSessions + 1
            mode := "break"
            remainingMs := state.breakDuration * 60 * 1000 }
        else
          { state with
            isRunning := false
            mode := "work"
            remainingMs := state.workDuration * 60 * 1000 }
      else
        { state with remainingMs := remainingMs }
    | _, _ => state

/-- `TimerStorage.saveState(state)` at instant `now`: the record written is the
state verbatim except `lastTickAt`, set to `now` while running and cleared
otherwise. -/
def saveState (state : TimerState) (now : Int) : TimerState :=
  { state with lastTickAt := if state.isRunning then some now else none }

/-- The current mode's full configured phase length in milliseconds, as
computed inline by `getProgress` and `reset`. -/
def phaseTotalMs (state : TimerState) : Nat :=
  if state.mode = "work"
    then state.workDuration * 60 * 1000
    else state.breakDuration * 60 * 1000

/-- `TimerStorage.getProgress(state)`:
`((totalMs - remainingMs) / totalMs) * 100` over rationals, clamped into
`[0, 100]` by `Math.min(100, Math.max(0, progress))`. -/
def getProgress (state : TimerState) : ℚ :=
  let totalMs : ℚ := (phaseTotalMs state : ℚ)
  let progress := ((totalMs - (state.remainingMs : ℚ)) / totalMs) * 100
  min 100 (max 0 progress)

/-- The events a `PomodoroManager` emits, in the payload shapes the source
builds: `onStateChange` from `updateState`, `onTick` with the new remaining
time, `onComplete` and `onModeSwitch` with mode strings and the session
count. -/
inductive Event where
  | stateChange : Event
  | tick (remainingMs : Nat) : Event
  | complete (completedMode nextMode : String) (completedSessions : Nat) : Event
  | modeSwitch (fromMode toMode : String) (completedSessions : Nat) : Event
deriving DecidableEq, Repr

/-- `PomodoroManager.handleTimerComplete()`: capture whether a work session
just finished, apply `transitionToNext`, persist via `updateState` (which
emits `onStateChange`), then emit `onComplete` and `onModeSwitch` in that
order. -/
def handleTimerComplete (s : TimerState) : TimerState × List Event :=
  let wasWorkSession := s.mode = "work"
  let nextState := transitionToNext s
  (nextState,
    [Event.stateChange,
     Event.complete (if wasWorkSession then "work" else "break")
       nextState.mode nextState.completedSessions,
     Event.modeSwitch (if wasWorkSession then "work" else "break")
       nextState.mode nextState.completedSessions])

/-- `PomodoroManager.tick()`: a no-op when not running; otherwise decrement
`remainingMs` by the 1000 ms quantum floored at 0, completing the phase when
the result is 0 and otherwise persisting and emitting `onTick`. -/
def tick (s : TimerState) : TimerState × List Event :=
  if s.isRunning then
    let newRemainingMs := s.remainingMs - 1000
    if newRemainingMs = 0 then
      handleTimerComplete s
    else
      ({ s with remainingMs := newRemainingMs },
        [Event.stateChange, Event.tick newRemainingMs])
  else (s, [])

/-- `PomodoroManager.skipSession()`: apply `transitionToNext` and persist via
`updateState`. `updateState` replaces `this.state` with `nextState` before
the `onModeSwitch` emit is built, so the `fromMode` field reads
`this.state.mode` AFTER the update: it carries the post-transition mode, the
same value as `toMode`. -/
def skipSession (s : TimerState) : TimerState × List Event :=
  let nextState := transitionToNext s
  (nextState,
    [Event.stateChange,
     Event.modeSwitch nextState.mode nextState.mode nextState.completedSessions])

/-- `PomodoroManager.selectPreset(presetName, customDurations)`: stop the
schedule, build a fresh state with `initializeWithPreset`, carry over only
`completedSessions` from the prior state, persist, emit `onStateChange`. -/
def selectPreset (s : TimerState) (presetName : String)
    (customDurations : CustomDurations) : TimerState × List Event :=
  let newState := initializeWithPreset presetName customDurations
  let newState := { newState with completedSessions := s.completedSessions }
  (newState, [Event.stateChange])

/-- `PomodoroManager.setCustomDurations(workMinutes, breakMinutes)`: delegate
to `selectPreset('custom', ...)` with both overrides present. -/
def setCustomDurations (s : TimerState) (workMinutes breakMinutes : Nat) :
    TimerState × List Event :=
  selectPreset s "custom"
    { workDuration := some workMinutes, breakDuration := some breakMinutes }

/-- `PomodoroManager.reset()`: stop the schedule and restore the current
mode's full duration without touching mode, preset, or session count. -/
def reset (s : TimerState) : TimerState × List Event :=
  let resetTime := if s.mode = "work"
    then s.workDuration * 60 * 1000
    else s.breakDuration * 60 * 1000
  ({ s with isRunning := false, remainingMs := resetTime }, [Event.stateChange])

/-- `PomodoroManager.resetAll()`: stop the schedule, clear the persisted
record, and reload — with nothing stored, `loadState` returns the defaults
(so `completedSessions` is discarded); `onStateChange` is emitted. -/
def resetAll (now : Int) : TimerState × List Event :=
  (loadState none now, [Event.stateChange])

/-- Concrete input for C1: the default configuration, running in work mode
with one second left. -/
def c1_state : TimerState :=
  { defaultState with isRunning := true, remainingMs := 1000 }

/-- Concrete counterexample input for C2: a running record whose stored
timestamp is the instant 0 — non-null, but falsy in the source's
`state.isRunning && state.lastTickAt` guard. -/
def c2_state : TimerState :=
  { defaultState with
    isRunning := true
    lastTickAt := some 0
    remainingMs := 10000 }

/-- Concrete witness input for C2 (amended): the spec's reconciliation
example with a truthy timestamp — running, saved at instant 1, loaded
30 s later with 10 s remaining. -/
def c2run_state : TimerState :=
  { defaultState with
    isRunning := true
    lastTickAt := some 1
    remainingMs := 10000 }

/-- The property names an object literal inherits from `Object.prototype`.
For these names `presets[presetName]` in `initializeWithPreset` is a truthy
inherited function rather than `undefined`, the `|| presets.pomodoro`
fallback does not fire, and the built state has `undefined` durations and
`NaN` `remainingMs` — values outside this model's `Nat`-valued state space.
The model of `initializeWithPreset` is therefore claimed faithful only for
preset names not in this list. -/
def objectPrototypeKeys : List String :=
  ["constructor", "hasOwnProperty", "isPrototypeOf", "propertyIsEnumerable",
   "toLocaleString", "toString", "valueOf", "__proto__", "__defineGetter__",
   "__defineSetter__", "__lookupGetter__", "__lookupSetter__"]

/-- Concrete input for C3: a paused `break` state with 3 completed sessions
and 2 minutes remaining. -/
def c3_state : TimerState :=
  { defaultState with
    mode := "break"
    remainingMs := 120000
    completedSessions := 3 }

/-- Concrete input for C4: a prior state whose last-used custom durations
were 40/7. -/
def c4_state : TimerState :=
  { defaultState with customWorkDuration := 40, customBreakDuration := 7 }

/-- Concrete input for C7: a work-mode state whose `remainingMs` exceeds the
configured 25-minute phase total. -/
def c7_state : TimerState :=
  { defaultState with remainingMs := 1500001 }

end PomodoroCore

namespace PomodoroCore

/-! ### Claim theorems -/

/-- C1: ticking a running `work` state with `remainingMs = 1000` (and a
positive configured break duration, as the data model requires) transitions
to `break` with a full break phase remaining, stops the timer, increments
`completedSessions` by exactly 1, and emits `complete` then `modeSwitch` in
that order (after the `stateChange` of the persisting update); the stored
`remainingMs` is never 0. -/
theorem tick_work_lastSecond_completes (s : TimerState)
    (hrun : s.isRunning = true) (hmode : s.mode = "work")
    (hrem : s.remainingMs = 1000) (hbd : 0 < s.breakDuration) :
    (tick s).1.mode = "break" ∧
    (tick s).1.remainingMs = s.breakDuration * 60000 ∧
    (tick s).1.isRunning = false ∧
    (tick s).1.completedSessions = s.completedSessions + 1 ∧
    (tick s).2 = [Event.stateChange,
      Event.complete "work" "break" (s.completedSessions + 1),
      Event.modeSwitch "work" "break" (s.completedSessions + 1)] ∧
    (tick s).1.remainingMs ≠ 0 := by
  simp [tick, hrun, hrem, handleTimerComplete, transitionToNext, getNextMode,
    hmode, String.reduceEq]
  omega

/-- C1 witness: the theorem instantiated at `c1_state`. -/
theorem tick_work_lastSecond_completes_witness :
    (tick c1_state).1.mode = "break" ∧
    (tick c1_state).1.remainingMs = c1_state.breakDuration * 60000 ∧
    (tick c1_state).1.isRunning = false ∧
    (tick c1_state).1.completedSessions = c1_state.completedSessions + 1 ∧
    (tick c1_state).2 = [Event.stateChange,
      Event.complete "work" "break" (c1_state.completedSessions + 1),
      Event.modeSwitch "work" "break" (c1_state.completedSessions + 1)] ∧
    (tick c1_state).1.remainingMs ≠ 0 :=
  tick_work_lastSecond_completes c1_state rfl rfl rfl (by decide)

/-- C3: `skipSession` on a `break` state does transition to `work`, leave
`completedSessions` unchanged and emit no `complete` event, but the
`modeSwitch` payload carries `fromMode = "work"` — the post-transition mode,
equal to `toMode` — because the source reads `this.state.mode` after
`updateState` has already replaced the state. The claim requires
`fromMode = "break"` (the pre-transition mode) here. -/
theorem skipSession_break_fromMode_is_postTransition :
    (skipSession c3_state).1.mode = "work" ∧
    (skipSession c3_state).1.completedSessions = c3_state.completedSessions ∧
    (skipSession c3_state).2
      = [Event.stateChange, Event.modeSwitch "work" "work" 3] ∧
    c3_state.mode = "break" := by
  decide

/-- C4 counterexample: selecting the non-custom preset `pomodoro` does NOT
retain the prior state's `customWorkDuration`/`customBreakDuration` (40/7);
`initializeWithPreset` rebuilds them from the defaults. -/
theorem selectPreset_pomodoro_drops_custom_durations :
    ¬ ((selectPreset c4_state "pomodoro" noDurations).1.customWorkDuration
         = c4_state.customWorkDuration ∧
       (selectPreset c4_state "pomodoro" noDurations).1.customBreakDuration
         = c4_state.customBreakDuration) := by
  decide

/-- C4 amended: selecting any preset with no overrides resets
`customWorkDuration` and `customBreakDuration` to the default values 25 and
5, regardless of the prior state: the last-used custom values are not
retained across `selectPreset`. -/
theorem selectPreset_resets_custom_durations (s : TimerState)
    (presetName : String) :
    (selectPreset s presetName noDurations).1.customWorkDuration = 25 ∧
    (selectPreset s presetName noDurations).1.customBreakDuration = 5 := by
  simp [selectPreset, initializeWithPreset, jsOrNat, noDurations, defaultState]

/-- C5: `selectPreset('deepwork')` yields a work-mode state with a 50/10
configuration and a full 50-minute (3 000 000 ms) work phase remaining, with
`completedSessions` carried over unchanged from the prior state. -/
theorem selectPreset_deepwork_spec (s : TimerState) :
    (selectPreset s "deepwork" noDurations).1.workDuration = 50 ∧
    (selectPreset s "deepwork" noDurations).1.breakDuration = 10 ∧
    (selectPreset s "deepwork" noDurations).1.remainingMs = 3000000 ∧
    (selectPreset s "deepwork" noDurations).1.mode = "work" ∧
    (selectPreset s "deepwork" noDurations).1.completedSessions
      = s.completedSessions := by
  simp [selectPreset, initializeWithPreset, getPresets, jsOrNat, noDurations,
    defaultState]

/-- C6: saving a paused state and loading it back (at any instants) returns
the state unchanged in every field except `lastTickAt`, which comes back
`null`. -/
theorem save_then_load_roundtrip (s : TimerState) (now : Int)
    (hpaused : s.isRunning = false) :
    loadState (some (saveState s now)) now = { s with lastTickAt := none } := by
  simp [saveState, loadState, hpaused]

/-- C6 witness: the round trip at a concrete paused state. -/
theorem save_then_load_roundtrip_witness :
    loadState (some (saveState c4_state 12345)) 12345
      = { c4_state with lastTickAt := none } :=
  save_then_load_roundtrip c4_state 12345 rfl

/-- C9 counterexample: `initializeWithPreset` on the unknown name `"xyz"`
does not produce the same state as on `"pomodoro"`: the `preset` field keeps
the unknown name. -/
theorem initializeWithPreset_unknown_ne_pomodoro :
    initializeWithPreset "xyz" noDurations
      ≠ initializeWithPreset "pomodoro" noDurations := by
  decide

/-- C9 amended: an unknown preset name that is not inherited from
`Object.prototype` falls back to the `pomodoro` catalog entry for every
duration-derived field, but the resulting state stores the unknown name
itself in `preset`: the result equals the `pomodoro` state with only the
`preset` field replaced. Names in `objectPrototypeKeys` (such as
`"toString"`) are excluded: there the source's lookup resolves to a truthy
inherited function, the `|| presets.pomodoro` fallback never fires, and the
built state has `undefined` durations and `NaN` `remainingMs` rather than
the `pomodoro` fallback. -/
theorem initializeWithPreset_unknown_falls_back (presetName : String)
    (h1 : presetName ≠ "pomodoro") (h2 : presetName ≠ "deepwork")
    (h3 : presetName ≠ "custom")
    (h4 : presetName ∉ objectPrototypeKeys) :
    initializeWithPreset presetName noDurations
      = { initializeWithPreset "pomodoro" noDurations with
          preset := presetName } := by
  simp [initializeWithPreset, getPresets, h1, h2, h3, jsOrNat, noDurations]

/-- C9 witness: the fallback at the concrete unknown name `"xyz"`, which is
neither a catalog key nor an `Object.prototype` property. -/
theorem initializeWithPreset_unknown_falls_back_witness :
    initializeWithPreset "xyz" noDurations
      = { initializeWithPreset "pomodoro" noDurations with preset := "xyz" } :=
  initializeWithPreset_unknown_falls_back "xyz" (by decide) (by decide)
    (by decide) (by decide)

end PomodoroCore

namespace PomodoroCore

/-- C2 counterexample: the record of `c2_state` is running and its
`lastTickAt` is non-null, yet `loadState` returns it completely unchanged —
the source's truthiness guard `state.isRunning && state.lastTickAt` treats
the stored timestamp 0 as falsy and skips reconciliation, so no subtraction
is performed, no transition is applied, and `isRunning` stays true, contrary
to the claim's required behaviour at this record (elapsed 30 s would floor
10 s to 0 and force a transition with `isRunning = false`). -/
theorem loadState_zero_timestamp_skips_reconciliation :
    c2_state.isRunning = true ∧ c2_state.lastTickAt = some 0 ∧
    loadState (some c2_state) 30000 = c2_state ∧
    (loadState (some c2_state) 30000).isRunning = true ∧
    (loadState (some c2_state) 30000).remainingMs = c2_state.remainingMs := by
  decide

/-- C2 amended: loading a persisted running record with a stored nonzero
`lastTickAt` (the guard is a truthiness test, so a timestamp of exactly 0 is
falsy and skips reconciliation, returning the record unchanged) subtracts
the elapsed wall-clock time from `remainingMs` floored at 0. When the floor
does not reach 0 only `remainingMs` changes; when it reaches 0 exactly one
phase transition is applied inline — mode flipped, `remainingMs` set to the
next phase's full duration, `completedSessions` incremented iff the expired
phase was `work` — and `isRunning` comes back false. Records are modelled
fully populated, as `saveState` always writes every field, so the fail-soft
spread-merge with `defaultState` is the identity and the returned state has
every field populated by construction. -/
theorem loadState_running_reconciliation (st : TimerState) (now t : Int)
    (hrun : st.isRunning = true) (hlt : st.lastTickAt = some t)
    (ht : t ≠ 0) :
    (((st.remainingMs : Int) - (now - t)).toNat ≠ 0 →
      loadState (some st) now
        = { st with remainingMs := ((st.remainingMs : Int) - (now - t)).toNat }) ∧
    (((st.remainingMs : Int) - (now - t)).toNat = 0 →
      (loadState (some st) now).isRunning = false ∧
      (loadState (some st) now).mode
        = (if st.mode = "work" then "break" else "work") ∧
      (loadState (some st) now).remainingMs
        = (if st.mode = "work" then st.breakDuration
           else st.workDuration) * 60000 ∧
      (loadState (some st) now).completedSessions
        = (if st.mode = "work" then st.completedSessions + 1
           else st.completedSessions)) := by
  constructor
  · intro h0
    simp only [loadState, hrun, hlt]
    simp [ht, h0]
  · intro h0
    by_cases hm : st.mode = "work"
    · simp only [loadState, hrun, hlt]
      simp [ht, h0, hm]
      omega
    · simp only [loadState, hrun, hlt]
      simp [ht, h0, hm]
      omega

/-- C2 witness: the spec's reconciliation example with a truthy timestamp
(running, saved at instant 1, loaded 30 s later with 10 s left) expires and
takes the transition branch of the theorem. -/
theorem loadState_running_reconciliation_witness :
    (loadState (some c2run_state) 30001).isRunning = false ∧
    (loadState (some c2run_state) 30001).mode
      = (if c2run_state.mode = "work" then "break" else "work") ∧
    (loadState (some c2run_state) 30001).remainingMs
      = (if c2run_state.mode = "work" then c2run_state.breakDuration
         else c2run_state.workDuration) * 60000 ∧
    (loadState (some c2run_state) 30001).completedSessions
      = (if c2run_state.mode = "work" then c2run_state.completedSessions + 1
         else c2run_state.completedSessions) :=
  (loadState_running_reconciliation c2run_state 30001 1 rfl rfl
    (by decide)).2 (by decide)

/-- C8: the session-count policy of every operation. The pure transition
(hence `skipSession` and a tick that completes the phase) adds exactly 1
when the completed phase is `work` and leaves the count unchanged when it is
`break`; load-time reconciliation does the same on expiry — which requires
the truthiness guard to pass, i.e. a running record with a present, nonzero
`lastTickAt` (a record stored at instant 0 skips reconciliation and keeps
its count); an idle or non-completing tick, `reset`, and `selectPreset`
leave the count unchanged; `resetAll` reloads the defaults, whose count
is 0. -/
theorem completedSessions_increment_policy (s st : TimerState)
    (now now2 : Int) (presetName : String) (cd : CustomDurations) :
    ((transitionToNext s).completedSessions
      = if s.mode = "work" then s.completedSessions + 1
        else s.completedSessions) ∧
    ((skipSession s).1.completedSessions
      = if s.mode = "work" then s.completedSessions + 1
        else s.completedSessions) ∧
    ((tick s).1.completedSessions
      = if s.isRunning = true ∧ s.remainingMs - 1000 = 0 then
          (if s.mode = "work" then s.completedSessions + 1
           else s.completedSessions)
        else s.completedSessions) ∧
    ((loadState (some st) now).completedSessions
      = match st.isRunning, st.lastTickAt with
        | true, some t =>
          if t ≠ 0 ∧ ((st.remainingMs : Int) - (now - t)).toNat = 0
              ∧ st.mode = "work"
            then st.completedSessions + 1
            else st.completedSessions
        | _, _ => st.completedSessions) ∧
    ((reset s).1.completedSessions = s.completedSessions) ∧
    ((selectPreset s presetName cd).1.completedSessions
      = s.completedSessions) ∧
    ((resetAll now2).1.completedSessions = 0) := by
  refine ⟨rfl, rfl, ?_, ?_, rfl, rfl, rfl⟩
  · by_cases hr : s.isRunning = true
    · by_cases h0 : s.remainingMs - 1000 = 0
      · simp [tick, hr, h0, handleTimerComplete, transitionToNext]
      · simp [tick, hr, h0]
    · simp [tick, hr]
  · cases hb : st.isRunning <;> rcases hl : st.lastTickAt with _ | t <;>
      simp only [loadState, hb, hl]
    by_cases ht : t = 0
    · simp [ht]
    · by_cases h0 : ((st.remainingMs : Int) - (now - t)).toNat = 0
      · by_cases hm : st.mode = "work" <;> simp [ht, h0, hm]
      · simp [ht, h0]

/-- C10: on the `custom` preset an absent or 0 override falls back to the
catalog defaults (25 work / 5 break) instead of storing a zero duration, so
the state `selectPreset('custom', ...)` produces always has positive phase
durations and positive `remainingMs`; `setCustomDurations` delegates to
`selectPreset('custom', ...)` and inherits the same guarantees. -/
theorem selectPreset_custom_positive_durations (s : TimerState)
    (cd : CustomDurations) (w b : Nat) :
    ((selectPreset s "custom" cd).1.workDuration
      = match cd.workDuration with
        | none => 25
        | some n => if n = 0 then 25 else n) ∧
    ((selectPreset s "custom" cd).1.breakDuration
      = match cd.breakDuration with
        | none => 5
        | some n => if n = 0 then 5 else n) ∧
    0 < (selectPreset s "custom" cd).1.workDuration ∧
    0 < (selectPreset s "custom" cd).1.breakDuration ∧
    0 < (selectPreset s "custom" cd).1.remainingMs ∧
    0 < (setCustomDurations s w b).1.workDuration ∧
    0 < (setCustomDurations s w b).1.breakDuration ∧
    0 < (setCustomDurations s w b).1.remainingMs ∧
    (setCustomDurations s 0 b).1.workDuration = 25 ∧
    (setCustomDurations s w 0).1.breakDuration = 5 := by
  obtain ⟨cw, cb⟩ := cd
  refine ⟨?_, ?_, ?_, ?_, ?_, ?_, ?_, ?_, ?_, ?_⟩ <;>
    simp only [selectPreset, setCustomDurations, initializeWithPreset,
      getPresets, jsOrNat, noDurations, String.reduceEq] <;>
    first
      | (cases cw <;> simp [jsOrNat] <;> split <;> omega)
      | (cases cb <;> simp [jsOrNat] <;> split <;> omega)

end PomodoroCore

namespace PomodoroCore

/-- C7 counterexample: at a work state whose `remainingMs` (1 500 001 ms)
strictly exceeds the configured 25-minute phase total, the clamp makes
`getProgress` return 0 even though `remainingMs` does not equal the full
duration — so "equals 0 exactly when `remainingMs` equals the full
duration" fails over all states. -/
theorem getProgress_zero_without_full_remaining :
    getProgress c7_state = 0 ∧ c7_state.remainingMs ≠ phaseTotalMs c7_state := by
  constructor
  · norm_num [getProgress, phaseTotalMs, c7_state, defaultState,
      String.reduceEq]
  · decide

/-- C7 amended: for every state with a positive phase total, `getProgress`
lies in [0, 100], equals 100 exactly when `remainingMs = 0`, and equals 0
exactly when `remainingMs` is at least the current mode's full configured
duration `phaseTotalMs` (hence, for in-range states, exactly at the full
duration); the denominator is the mode-dependent `phaseTotalMs`, not a
fixed constant. -/
theorem getProgress_bounds (s : TimerState) (h : 0 < phaseTotalMs s) :
    0 ≤ getProgress s ∧ getProgress s ≤ 100 ∧
    (getProgress s = 0 ↔ phaseTotalMs s ≤ s.remainingMs) ∧
    (getProgress s = 100 ↔ s.remainingMs = 0) := by
  have hT0 : (0 : ℚ) < (phaseTotalMs s : ℚ) := by exact_mod_cast h
  have hr0 : (0 : ℚ) ≤ (s.remainingMs : ℚ) := Nat.cast_nonneg _
  set T : ℚ := (phaseTotalMs s : ℚ) with hTdef
  set r : ℚ := (s.remainingMs : ℚ) with hrdef
  have hge : getProgress s = min 100 (max 0 (((T - r) / T) * 100)) := rfl
  set p : ℚ := ((T - r) / T) * 100 with hp
  have hple : p ≤ 0 ↔ T ≤ r := by
    rw [hp, div_mul_eq_mul_div, div_nonpos_iff]
    constructor
    · rintro (⟨h1, h2⟩ | ⟨h1, h2⟩) <;> nlinarith
    · intro hTr
      exact Or.inr ⟨by nlinarith, le_of_lt hT0⟩
  have hpge : 100 ≤ p ↔ r ≤ 0 := by
    rw [hp, div_mul_eq_mul_div, le_div_iff₀ hT0]
    constructor <;> intro h1 <;> nlinarith
  have hcle : T ≤ r ↔ phaseTotalMs s ≤ s.remainingMs := by
    rw [hTdef, hrdef]; exact_mod_cast Iff.rfl
  refine ⟨?_, ?_, ?_, ?_⟩
  · rw [hge]
    exact le_min (by norm_num) (le_max_left 0 p)
  · rw [hge]
    exact min_le_left _ _
  · rw [hge, ← hcle, ← hple]
    constructor
    · intro h0
      by_contra hp0
      push_neg at hp0
      have hpos : 0 < min 100 (max 0 p) :=
        lt_min (by norm_num) (lt_max_of_lt_right hp0)
      rw [h0] at hpos
      exact lt_irrefl 0 hpos
    · intro hp0
      rw [max_eq_left hp0, min_eq_right (by norm_num : (0 : ℚ) ≤ 100)]
  · rw [hge, min_eq_left_iff, le_max_iff]
    constructor
    · rintro (h1 | h1)
      · norm_num at h1
      · have hr00 : r = 0 := le_antisymm (hpge.mp h1) hr0
        rw [hrdef] at hr00
        exact_mod_cast hr00
    · intro h1
      refine Or.inr (hpge.mpr ?_)
      rw [hrdef, h1]
      norm_num

/-- C7 witness: the bounds at the default state (25-minute work phase, full
time remaining). -/
theorem getProgress_bounds_witness :
    0 ≤ getProgress defaultState ∧ getProgress defaultState ≤ 100 ∧
    (getProgress defaultState = 0
      ↔ phaseTotalMs defaultState ≤ defaultState.remainingMs) ∧
    (getProgress defaultState = 100 ↔ defaultState.remainingMs = 0) :=
  getProgress_bounds defaultState (by decide)

end PomodoroCore
